import Mathlib

/-!
Shallow embedding of the formula1-predictor repository
(src/formula1/predictor.py and src/formula1/cli.py) in Lean 4.

Modelling conventions:
* A pandas results row (as yielded by `standings_df.iterrows()`) is a `Row`
  whose fields are `Option`-valued: `none` means the column is absent from the
  frame (so `driver['X']` raises `KeyError` and `'X' in driver` is `False`).
* A position cell is a `PosVal`: `na` models a value for which `pd.isna` is
  true, `num n` models a value that Python's `int()` converts to the integer
  `n`, and `unparseableVal s` models a value for which `int()` raises
  `ValueError`.
* Python exceptions escaping `generate_prediction` are modelled by the
  `Outcome.raised` constructor; a normal `return` of a dict is `Outcome.ret`
  carrying the dict as an ordered association list, so that the exact key set
  of the returned record is observable.
* The process-global random state is modelled as a tape `g : Nat → Nat` of
  draws; `random.sample` removes one element of the population per draw
  (selection without replacement, i.e. distinct indices, exactly as
  `random.sample` guarantees) and `random.choice` indexes the list by one
  draw modulo its length.
-/

namespace Formula1

/-- A value stored in the `Position` cell of a results row. -/
inductive PosVal : Type
  | na : PosVal
  | num (n : Int) : PosVal
  | unparseableVal (s : String) : PosVal
deriving DecidableEq, Repr

/-- Models `pd.isna(v)` on a position cell. -/
def PosVal.isna : PosVal → Bool
  | .na => true
  | _ => false

/-- Models Python `int(v)`: succeeds on a numeric value, raises `ValueError`
otherwise.  (The `na` branch is unreachable in `generate_prediction`, which
guards with `pd.isna` first.) -/
def PosVal.toInt : PosVal → Except String Int
  | .na => .error "ValueError: cannot convert NA to integer"
  | .num n => .ok n
  | .unparseableVal s => .error ("ValueError: invalid literal for int: " ++ s)

/-- One row of the fastf1 `session.results` DataFrame, restricted to the
columns `generate_prediction` reads.  `none` = column absent from the frame. -/
structure Row : Type where
  Position : Option PosVal
  GivenName : Option String
  FamilyName : Option String
  Driver : Option String
  Abbreviation : Option String
  TeamName : Option String
deriving DecidableEq, Repr

/-- The per-driver record appended to the `drivers` list
(`{"name": ..., "position": ..., "constructor": ...}`). -/
structure Driver : Type where
  name : String
  position : Int
  constructor : String
deriving DecidableEq, Repr

/-- The `CIRCUIT_TIDBITS` dict, as the ordered key/value list in which Python
iterates it (insertion order). -/
def CIRCUIT_TIDBITS : List (String × String) := [
  ("Bahrain", "Known for its abrasive surface, tire degradation is always a key factor."),
  ("Jeddah", "A high-speed street circuit. Expect close walls and high drama."),
  ("Melbourne", "A fan favorite to start the season. It\x27s a tricky, bumpy track."),
  ("Imola", "An old-school, unforgiving track. Mistakes are punished harshly."),
  ("Miami", "A modern track with a mix of high-speed straights and technical sections."),
  ("Monaco", "The crown jewel. Overtaking is nearly impossible, so qualifying is everything."),
  ("Baku", "Chaos is the name of the game here with its long straight and tight castle section."),
  ("Montréal", "The \x27Wall of Champions\x27 awaits. A track that rewards aggressive driving."),
  ("Catalunya", "A circuit teams know inside-out. Car performance is truly tested here."),
  ("Spielberg", "A short, fast lap with big elevation changes. Expect close racing."),
  ("Silverstone", "The historic home of F1. High-speed corners like Maggots and Becketts are legendary."),
  ("Budapest", "Often called \x27Monaco without the walls\x27. It\x27s tight, twisty, and hot."),
  ("Spa-Francorchamps", "A true driver\x27s circuit. Eau Rouge and Raidillon are iconic."),
  ("Zandvoort", "A banked, flowing circuit that is a huge challenge for drivers."),
  ("Monza", "The \x27Temple of Speed\x27. It\x27s all about low drag and high straight-line speed."),
  ("Singapore", "A grueling, humid night race on a bumpy street circuit."),
  ("Suzuka", "A legendary figure-eight track loved by all drivers."),
  ("Austin", "A modern classic with a bit of everything, from fast sweeps to heavy braking."),
  ("Mexico City", "The high altitude saps engine power and tests cooling systems to their limit."),
  ("São Paulo", "Famous for its unpredictable weather and passionate fans. Always exciting."),
  ("Las Vegas", "A spectacular night race down the famous Strip. It\x27s all about the show."),
  ("Lusail", "A fast, flowing track originally built for MotoGP, making it tough on drivers\x27 necks."),
  ("Abu Dhabi", "The season finale. A modern circuit that often hosts title deciders under the lights.")]

/-- The generic default tidbit (`tidbit = "A circuit that always brings excitement!"`). -/
def defaultTidbit : String := "A circuit that always brings excitement!"

/-- Substring test on character lists: does `needle` occur contiguously in
`hay`?  (The empty needle occurs everywhere, as for Python's `in`.) -/
def containsSub (hay needle : List Char) : Bool :=
  needle.isPrefixOf hay ||
    match hay with
    | [] => false
    | _ :: t => containsSub t needle

/-- Models Python `needle.lower() in hay.lower()` (case-insensitive substring
test).  Lowercasing is per character; on every key of `CIRCUIT_TIDBITS` (whose
non-ASCII characters are already lowercase) this agrees with Python's
`str.lower()`. -/
def strContainsCI (hay needle : String) : Bool :=
  containsSub (hay.toList.map Char.toLower) (needle.toList.map Char.toLower)

/-- Python truthiness of an optional string: `None` and `""` are falsy. -/
def pyTruthyStr : Option String → Bool
  | none => false
  | some s => !s.isEmpty

/-- Models `random.choice(pool)`: one tape draw, indexing the list.  Returns
`none` exactly on the empty list (where CPython would raise; the source guards
each call with a non-emptiness test). -/
def random_choice (g : Nat → Nat) (t : Nat) (pool : List Driver) : Option Driver :=
  pool[g t % pool.length]?

/-- One step per sampled element: draw an index into the remaining population,
take that element and remove it (so later draws cannot pick the same index
again), exactly the without-replacement guarantee of `random.sample`. -/
def sampleAux (g : Nat → Nat) (t : Nat) : Nat → List Driver → List Driver
  | 0, _ => []
  | k + 1, pool =>
    match pool[g t % pool.length]? with
    | none => []
    | some d => d :: sampleAux g (t + 1) k (pool.eraseIdx (g t % pool.length))

/-- Models `random.sample(pool, k)` (the source always calls it with
`k ≤ pool.length`, so the ValueError branch of CPython is unreachable). -/
def random_sample (g : Nat → Nat) (t : Nat) (pool : List Driver) (k : Nat) : List Driver :=
  sampleAux g t k pool

/-- Name derivation of lines 123-129 of predictor.py: prefer
GivenName+FamilyName (presence of both columns), else the Driver column,
else `str(driver.get('Abbreviation', 'Unknown'))`. -/
def deriveName (row : Row) : String :=
  if row.GivenName.isSome && row.FamilyName.isSome then
    row.GivenName.getD "" ++ " " ++ row.FamilyName.getD ""
  else
    match row.Driver with
    | some d => d
    | none => row.Abbreviation.getD "Unknown"

/-- The loop of lines 119-134 of predictor.py building the `drivers` list:
rows whose `Position` is NA are skipped; `driver['Position']` with the column
absent raises `KeyError`; `int(driver['Position'])` may raise `ValueError`;
`driver['TeamName']` with the column absent raises `KeyError`.  A raised
exception aborts the whole loop (and escapes `generate_prediction`, which has
no handler). -/
def buildDrivers : List Row → Except String (List Driver)
  | [] => .ok []
  | row :: rest =>
    match row.Position with
    | none => .error "KeyError: Position"
    | some pv =>
      if pv.isna then buildDrivers rest
      else
        match pv.toInt with
        | .error e => .error e
        | .ok pos =>
          match row.TeamName with
          | none => .error "KeyError: TeamName"
          | some team => do
            let ds ← buildDrivers rest
            pure ({ name := deriveName row, position := pos, constructor := team } :: ds)

/-- The `event_info` argument: either a dict (`.get` access) or an
attribute-style object (`getattr` access), each with possibly-absent
`EventName` / `Location` fields. -/
inductive EventInfo : Type
  | dict (eventName location : Option String) : EventInfo
  | attrObj (eventName location : Option String) : EventInfo
deriving DecidableEq, Repr

/-- Lines 154-159: `event_info.get('EventName')` for a dict, otherwise
`getattr(event_info, 'EventName', None)`. -/
def EventInfo.eventName : EventInfo → Option String
  | .dict n _ => n
  | .attrObj n _ => n

/-- Lines 154-159: `event_info.get('Location')` for a dict, otherwise
`getattr(event_info, 'Location', None)`. -/
def EventInfo.locationOf : EventInfo → Option String
  | .dict _ l => l
  | .attrObj _ l => l

/-- A value of the returned dict: a string, the favorites list, or an
optional driver. -/
inductive PValue : Type
  | str (s : String) : PValue
  | drivers (l : List Driver) : PValue
  | optDriver (d : Option Driver) : PValue
deriving DecidableEq, Repr

/-- What a call of `generate_prediction` does: return a dict (as an ordered
association list) or let an exception escape. -/
inductive Outcome : Type
  | ret (r : List (String × PValue)) : Outcome
  | raised (e : String) : Outcome
deriving DecidableEq, Repr

/-- The error message of lines 115-117. -/
def standingsErrMsg : String := "Cannot generate prediction without driver standings."

/-- Lines 136-137: the top-5 pool. -/
def top_contenders (drivers : List Driver) : List Driver :=
  drivers.filter (fun d => decide (d.position ≤ 5))

/-- Line 144: the mid pool, positions 4..8. -/
def midfield_strong (drivers : List Driver) : List Driver :=
  drivers.filter (fun d => decide (4 ≤ d.position) && decide (d.position ≤ 8))

/-- Line 146: the low pool, positions 9..15. -/
def midfield_pack (drivers : List Driver) : List Driver :=
  drivers.filter (fun d => decide (9 ≤ d.position) && decide (d.position ≤ 15))

/-- Lines 160-164: iterate the tidbit table in insertion order; the first key
whose lowercasing is a substring of the lowercased event name wins (`break`);
the guard `if event_name:` is Python truthiness. -/
def selectTidbit (event_name : Option String) : String :=
  if pyTruthyStr event_name then
    match CIRCUIT_TIDBITS.find? (fun kv => strContainsCI (event_name.getD "") kv.1) with
    | some kv => kv.2
    | none => defaultTidbit
  else defaultTidbit

/-- Line 140: `num_to_sample = min(3, len(top_contenders))`. -/
def num_to_sample (drivers : List Driver) : Nat :=
  min 3 (top_contenders drivers).length

/-- Line 143: `podium_favorites = random.sample(top_contenders, k=num_to_sample)`. -/
def podium_favorites (g : Nat → Nat) (drivers : List Driver) : List Driver :=
  random_sample g 0 (top_contenders drivers) (num_to_sample drivers)

/-- Line 145: `dark_horse = random.choice(midfield_strong) if midfield_strong else None`. -/
def dark_horse (g : Nat → Nat) (drivers : List Driver) : Option Driver :=
  if (midfield_strong drivers).isEmpty then none
  else random_choice g (num_to_sample drivers) (midfield_strong drivers)

/-- Line 147: `potential_surprise = random.choice(midfield_pack) if midfield_pack else None`. -/
def potential_surprise (g : Nat → Nat) (drivers : List Driver) : Option Driver :=
  if (midfield_pack drivers).isEmpty then none
  else random_choice g (num_to_sample drivers + 1) (midfield_pack drivers)

/-- Lines 150-159: the resolved `event_name` local (None when no event info). -/
def event_name_of (event_info : Option EventInfo) : Option String :=
  (event_info.map EventInfo.eventName).getD none

/-- Lines 151-159: the resolved `event_location` local (None when no event info). -/
def event_location_of (event_info : Option EventInfo) : Option String :=
  (event_info.map EventInfo.locationOf).getD none

/-- Lines 149-164: the resolved `tidbit` local (the loop only runs inside
`if event_info is not None`). -/
def tidbit_of (event_info : Option EventInfo) : String :=
  match event_info with
  | none => defaultTidbit
  | some _ => selectTidbit (event_name_of event_info)

/-- The `prediction` dict literal of lines 166-173, as an ordered association
list (insertion order of the dict literal). -/
def predRecord (g : Nat → Nat) (drivers : List Driver) (event_info : Option EventInfo) :
    List (String × PValue) :=
  [("event_name", .str (if pyTruthyStr (event_name_of event_info)
      then (event_name_of event_info).getD "" else "Unknown Event")),
   ("location", .str (if pyTruthyStr (event_location_of event_info)
      then (event_location_of event_info).getD "" else "Unknown Location")),
   ("tidbit", .str (tidbit_of event_info)),
   ("podium_favorites", .drivers (podium_favorites g drivers)),
   ("dark_horse", .optDriver (dark_horse g drivers)),
   ("potential_surprise", .optDriver (potential_surprise g drivers))]

/-- `generate_prediction(standings_df, event_info)` of predictor.py
(lines 109-175), over a random tape `g`.  `standings_df = none` models the
Python `None`; `some rows` a DataFrame with those rows (`.empty` iff the row
list is empty). -/
def generate_prediction (g : Nat → Nat) (standings_df : Option (List Row))
    (event_info : Option EventInfo) : Outcome :=
  match standings_df with
  | none => .ret [("error", .str standingsErrMsg)]
  | some rows =>
    if rows.isEmpty then .ret [("error", .str standingsErrMsg)]
    else
      match buildDrivers rows with
      | .error e => .raised e
      | .ok drivers => .ret (predRecord g drivers event_info)

/-- The value stored under key `k` of a returned record (`none` if the call
raised or the key is absent). -/
def getField (o : Outcome) (k : String) : Option PValue :=
  match o with
  | .ret r => r.lookup k
  | .raised _ => none

/-- String-valued field accessor. -/
def getStr (o : Outcome) (k : String) : Option String :=
  match getField o k with
  | some (.str s) => some s
  | _ => none

/-- The `podium_favorites` field of a returned record. -/
def getPodium (o : Outcome) : Option (List Driver) :=
  match getField o "podium_favorites" with
  | some (.drivers l) => some l
  | _ => none

/-- Optional-driver-valued field accessor (`dark_horse` / `potential_surprise`). -/
def getOptDriver (o : Outcome) (k : String) : Option (Option Driver) :=
  match getField o k with
  | some (.optDriver d) => some d
  | _ => none

/-! ## The schedule lookup `get_next_gp` (predictor.py lines 54-78) -/

/-- A row of the fastf1 event schedule, restricted to the fields
`get_next_gp` reads.  Dates are timestamps on an abstract integer timeline. -/
structure SEvent : Type where
  EventDate : Int
  EventName : String
deriving DecidableEq, Repr

/-- `get_next_gp(gp_name_query)` of predictor.py.  The external fastf1 pieces
are passed in: `schedule` is the already-fetched event schedule (in its own
row order, as `fastf1.get_event_schedule` returns it), `now` the current
time, and `get_event_by_name` the schedule's fuzzy name lookup (an external
library method, modelled as an oracle).  Returns the Python pair
`(event_or_None, error_message_or_None)`. -/
def get_next_gp (schedule : List SEvent) (now : Int)
    (get_event_by_name : String → Option SEvent) (gp_name_query : Option String) :
    Option SEvent × Option String :=
  let future_events := schedule.filter (fun e => decide (now ≤ e.EventDate))
  if future_events.isEmpty then
    (none, some "No upcoming races found for the rest of the season.")
  else if pyTruthyStr gp_name_query then
    let q := gp_name_query.getD ""
    match get_event_by_name q with
    | some event =>
      if now ≤ event.EventDate then (some event, none)
      else (none, some ("Could not find a future Grand Prix matching \x27" ++ q ++ "\x27."))
    | none => (none, some ("Could not find a future Grand Prix matching \x27" ++ q ++ "\x27."))
  else
    (future_events.head?, none)

/-! ## Helper lemmas -/

theorem sampleAux_length (g : Nat → Nat) :
    ∀ (k t : Nat) (pool : List Driver), k ≤ pool.length →
      (sampleAux g t k pool).length = k := by
  intro k
  induction k with
  | zero => intro t pool _; simp [sampleAux]
  | succ k ih =>
    intro t pool hk
    have hpos : 0 < pool.length := Nat.lt_of_lt_of_le (Nat.succ_pos k) hk
    have hlt : g t % pool.length < pool.length := Nat.mod_lt _ hpos
    have hlen : (pool.eraseIdx (g t % pool.length)).length + 1 = pool.length :=
      List.length_eraseIdx_add_one hlt
    rw [sampleAux, List.getElem?_eq_getElem hlt]
    simp only [List.length_cons]
    rw [ih (t + 1) _ (by omega)]

theorem sampleAux_subset (g : Nat → Nat) :
    ∀ (k t : Nat) (pool : List Driver) (d : Driver),
      d ∈ sampleAux g t k pool → d ∈ pool := by
  intro k
  induction k with
  | zero => intro t pool d h; simp [sampleAux] at h
  | succ k ih =>
    intro t pool d h
    rw [sampleAux] at h
    cases hget : pool[g t % pool.length]? with
    | none => rw [hget] at h; simp at h
    | some a =>
      rw [hget] at h
      simp only [List.mem_cons] at h
      have hlt : g t % pool.length < pool.length := by
        by_contra hge
        rw [List.getElem?_eq_none (Nat.le_of_not_lt hge)] at hget
        exact Option.noConfusion hget
      rcases h with h | h
      · subst h
        rw [List.getElem?_eq_getElem hlt] at hget
        cases hget
        exact List.getElem_mem hlt
      · exact List.eraseIdx_subset _ _ (ih (t + 1) _ d h)

theorem sampleAux_nodup (g : Nat → Nat) :
    ∀ (k t : Nat) (pool : List Driver), pool.Nodup →
      (sampleAux g t k pool).Nodup := by
  intro k
  induction k with
  | zero => intro t pool _; simp [sampleAux]
  | succ k ih =>
    intro t pool hnd
    rw [sampleAux]
    cases hget : pool[g t % pool.length]? with
    | none => simp
    | some a =>
      have hlt : g t % pool.length < pool.length := by
        by_contra hge
        rw [List.getElem?_eq_none (Nat.le_of_not_lt hge)] at hget
        exact Option.noConfusion hget
      have ha : a = pool[g t % pool.length] := by
        rw [List.getElem?_eq_getElem hlt] at hget
        cases hget; rfl
      have herase : pool.erase pool[g t % pool.length] =
          pool.eraseIdx (g t % pool.length) :=
        List.Nodup.erase_getElem hnd _ hlt
      rw [List.nodup_cons]
      constructor
      · intro hmem
        have hmem2 : a ∈ pool.eraseIdx (g t % pool.length) :=
          sampleAux_subset g k (t + 1) _ a hmem
        rw [ha, ← herase] at hmem2
        exact List.Nodup.not_mem_erase hnd hmem2
      · exact ih (t + 1) _ (by rw [← herase]; exact hnd.erase _)

theorem random_choice_mem (g : Nat → Nat) (t : Nat) (pool : List Driver)
    (d : Driver) (h : random_choice g t pool = some d) : d ∈ pool := by
  unfold random_choice at h
  have hlt : g t % pool.length < pool.length := by
    by_contra hge
    rw [List.getElem?_eq_none (Nat.le_of_not_lt hge)] at h
    exact Option.noConfusion h
  rw [List.getElem?_eq_getElem hlt] at h
  cases h
  exact List.getElem_mem hlt

theorem random_choice_isSome (g : Nat → Nat) (t : Nat) (pool : List Driver)
    (h : pool ≠ []) : ∃ d, random_choice g t pool = some d := by
  have hpos : 0 < pool.length := List.length_pos.mpr h
  have hlt : g t % pool.length < pool.length := Nat.mod_lt _ hpos
  exact ⟨_, by unfold random_choice; rw [List.getElem?_eq_getElem hlt]⟩

theorem mem_top_contenders {drivers : List Driver} {d : Driver}
    (h : d ∈ top_contenders drivers) : d ∈ drivers ∧ d.position ≤ 5 := by
  unfold top_contenders at h
  rw [List.mem_filter] at h
  exact ⟨h.1, by simpa using h.2⟩

theorem mem_midfield_strong {drivers : List Driver} {d : Driver}
    (h : d ∈ midfield_strong drivers) :
    d ∈ drivers ∧ 4 ≤ d.position ∧ d.position ≤ 8 := by
  unfold midfield_strong at h
  rw [List.mem_filter] at h
  have h2 := h.2
  simp only [Bool.and_eq_true, decide_eq_true_eq] at h2
  exact ⟨h.1, h2.1, h2.2⟩

theorem mem_midfield_pack {drivers : List Driver} {d : Driver}
    (h : d ∈ midfield_pack drivers) :
    d ∈ drivers ∧ 9 ≤ d.position ∧ d.position ≤ 15 := by
  unfold midfield_pack at h
  rw [List.mem_filter] at h
  have h2 := h.2
  simp only [Bool.and_eq_true, decide_eq_true_eq] at h2
  exact ⟨h.1, h2.1, h2.2⟩

theorem generate_prediction_ok (g : Nat → Nat) (rows : List Row)
    (ev : Option EventInfo) (ds : List Driver) (hne : rows ≠ [])
    (hok : buildDrivers rows = .ok ds) :
    generate_prediction g (some rows) ev = .ret (predRecord g ds ev) := by
  have hempty : rows.isEmpty = false := by
    simpa [List.isEmpty_iff] using hne
  simp only [generate_prediction, hempty, hok, if_false, Bool.false_eq_true]

theorem getPodium_predRecord (g : Nat → Nat) (ds : List Driver) (ev : Option EventInfo) :
    getPodium (.ret (predRecord g ds ev)) = some (podium_favorites g ds) := rfl

theorem getDark_predRecord (g : Nat → Nat) (ds : List Driver) (ev : Option EventInfo) :
    getOptDriver (.ret (predRecord g ds ev)) "dark_horse" = some (dark_horse g ds) := rfl

theorem getSurprise_predRecord (g : Nat → Nat) (ds : List Driver) (ev : Option EventInfo) :
    getOptDriver (.ret (predRecord g ds ev)) "potential_surprise" =
      some (potential_surprise g ds) := rfl

theorem getTidbit_predRecord (g : Nat → Nat) (ds : List Driver) (ev : Option EventInfo) :
    getStr (.ret (predRecord g ds ev)) "tidbit" = some (tidbit_of ev) := rfl

theorem getEventName_predRecord (g : Nat → Nat) (ds : List Driver) (ev : Option EventInfo) :
    getStr (.ret (predRecord g ds ev)) "event_name" =
      some (if pyTruthyStr (event_name_of ev) then (event_name_of ev).getD ""
            else "Unknown Event") := rfl

theorem getLocation_predRecord (g : Nat → Nat) (ds : List Driver) (ev : Option EventInfo) :
    getStr (.ret (predRecord g ds ev)) "location" =
      some (if pyTruthyStr (event_location_of ev) then (event_location_of ev).getD ""
            else "Unknown Location") := rfl

theorem podium_length (g : Nat → Nat) (ds : List Driver) :
    (podium_favorites g ds).length = min 3 (top_contenders ds).length := by
  unfold podium_favorites random_sample num_to_sample
  exact sampleAux_length g _ 0 _ (Nat.min_le_right _ _)

theorem podium_subset (g : Nat → Nat) (ds : List Driver) (d : Driver)
    (h : d ∈ podium_favorites g ds) : d ∈ top_contenders ds :=
  sampleAux_subset g _ 0 _ d h

theorem podium_nodup (g : Nat → Nat) (ds : List Driver)
    (h : (top_contenders ds).Nodup) : (podium_favorites g ds).Nodup :=
  sampleAux_nodup g _ 0 _ h

theorem dark_horse_mem (g : Nat → Nat) (ds : List Driver) (d : Driver)
    (h : dark_horse g ds = some d) : d ∈ midfield_strong ds := by
  unfold dark_horse at h
  by_cases hmid : (midfield_strong ds).isEmpty
  · rw [if_pos hmid] at h; exact Option.noConfusion h
  · rw [if_neg hmid] at h; exact random_choice_mem _ _ _ _ h

theorem dark_horse_none_iff (g : Nat → Nat) (ds : List Driver) :
    dark_horse g ds = none ↔ midfield_strong ds = [] := by
  unfold dark_horse
  by_cases hmid : (midfield_strong ds).isEmpty
  · simp [hmid, List.isEmpty_iff.mp hmid]
  · have hne2 : midfield_strong ds ≠ [] := by simpa [List.isEmpty_iff] using hmid
    obtain ⟨d, hd⟩ := random_choice_isSome g (num_to_sample ds) _ hne2
    rw [if_neg hmid, hd]
    simp [hne2]

theorem potential_surprise_mem (g : Nat → Nat) (ds : List Driver) (d : Driver)
    (h : potential_surprise g ds = some d) : d ∈ midfield_pack ds := by
  unfold potential_surprise at h
  by_cases hmid : (midfield_pack ds).isEmpty
  · rw [if_pos hmid] at h; exact Option.noConfusion h
  · rw [if_neg hmid] at h; exact random_choice_mem _ _ _ _ h

theorem potential_surprise_none_iff (g : Nat → Nat) (ds : List Driver) :
    potential_surprise g ds = none ↔ midfield_pack ds = [] := by
  unfold potential_surprise
  by_cases hmid : (midfield_pack ds).isEmpty
  · simp [hmid, List.isEmpty_iff.mp hmid]
  · have hne2 : midfield_pack ds ≠ [] := by simpa [List.isEmpty_iff] using hmid
    obtain ⟨d, hd⟩ := random_choice_isSome g (num_to_sample ds + 1) _ hne2
    rw [if_neg hmid, hd]
    simp [hne2]

/-! ## Claim theorems -/

/-- C1: for every standings input that is None or an empty table,
`generate_prediction` returns exactly the one-key record
`{error: "Cannot generate prediction without driver standings."}`,
regardless of the event argument (and of the random state). -/
theorem C1_empty_standings_error (g : Nat → Nat) (ev : Option EventInfo) :
    generate_prediction g none ev =
      .ret [("error", .str "Cannot generate prediction without driver standings.")] ∧
    generate_prediction g (some []) ev =
      .ret [("error", .str "Cannot generate prediction without driver standings.")] :=
  ⟨rfl, rfl⟩

/-- C10: a record returned by `generate_prediction` either is the error record,
whose only key is "error", or has exactly the six keys event_name, location,
tidbit, podium_favorites, dark_horse, potential_surprise and no "error" key;
and for a non-empty standings table the returned record (when the call returns
at all) always has the six keys and no "error" key. -/
theorem C10_error_key_discriminates (g : Nat → Nat) (df : Option (List Row))
    (ev : Option EventInfo) (r : List (String × PValue))
    (h : generate_prediction g df ev = .ret r) :
    (r.map Prod.fst = ["error"] ∨
      (r.map Prod.fst = ["event_name", "location", "tidbit", "podium_favorites",
          "dark_horse", "potential_surprise"] ∧ r.lookup "error" = none)) ∧
    (∀ rows, df = some rows → rows ≠ [] →
      r.map Prod.fst = ["event_name", "location", "tidbit", "podium_favorites",
          "dark_horse", "potential_surprise"] ∧ r.lookup "error" = none) := by
  have key : ∀ rows, df = some rows → rows ≠ [] →
      r.map Prod.fst = ["event_name", "location", "tidbit", "podium_favorites",
          "dark_horse", "potential_surprise"] ∧ r.lookup "error" = none := by
    intro rows hdf hne
    subst hdf
    cases hbd : buildDrivers rows with
    | error e =>
      have : generate_prediction g (some rows) ev = .raised e := by
        have hempty : rows.isEmpty = false := by simpa [List.isEmpty_iff] using hne
        simp only [generate_prediction, hempty, hbd, if_false, Bool.false_eq_true]
      rw [this] at h
      exact Outcome.noConfusion h
    | ok ds =>
      rw [generate_prediction_ok g rows ev ds hne hbd] at h
      have hr : r = predRecord g ds ev := (Outcome.ret.injEq _ _ ▸ h).symm
      subst hr
      exact ⟨rfl, rfl⟩
  refine ⟨?_, key⟩
  match df with
  | none =>
    have hr : r = [("error", .str standingsErrMsg)] := by
      have : generate_prediction g none ev = .ret [("error", .str standingsErrMsg)] := rfl
      rw [this] at h
      exact (Outcome.ret.injEq _ _ ▸ h).symm
    subst hr
    exact Or.inl rfl
  | some [] =>
    have hr : r = [("error", .str standingsErrMsg)] := by
      have : generate_prediction g (some []) ev =
          .ret [("error", .str standingsErrMsg)] := rfl
      rw [this] at h
      exact (Outcome.ret.injEq _ _ ▸ h).symm
    subst hr
    exact Or.inl rfl
  | some (row :: rest) =>
    exact Or.inr (key (row :: rest) rfl (by simp))

theorem C10_witness :
    (predRecord (fun _ => 0) [⟨"A", 1, "T"⟩] none).map Prod.fst =
        ["event_name", "location", "tidbit", "podium_favorites",
          "dark_horse", "potential_surprise"] ∧
      (predRecord (fun _ => 0) [⟨"A", 1, "T"⟩] none).lookup "error" = none :=
  (C10_error_key_discriminates (fun _ => 0)
      (some [⟨some (.num 1), none, none, some "A", none, some "T"⟩]) none
      (predRecord (fun _ => 0) [⟨"A", 1, "T"⟩] none) (by rfl)).2
    [⟨some (.num 1), none, none, some "A", none, some "T"⟩] rfl (by simp)

/-- C5: the tidbit is selected by case-insensitive substring match of the
fixed circuit table against the event name: for event name "Monaco Grand
Prix" (dict- or attribute-style event) the tidbit is exactly the Monaco table
entry, and for "Obscuretown Grand Prix", which matches no table key, it is
the generic default string. -/
theorem C5_tidbit_selection (g : Nat → Nat) (rows : List Row) (ds : List Driver)
    (loc : Option String) (hne : rows ≠ []) (hok : buildDrivers rows = .ok ds) :
    getStr (generate_prediction g (some rows)
        (some (.dict (some "Monaco Grand Prix") loc))) "tidbit" =
      some "The crown jewel. Overtaking is nearly impossible, so qualifying is everything." ∧
    getStr (generate_prediction g (some rows)
        (some (.attrObj (some "Monaco Grand Prix") loc))) "tidbit" =
      some "The crown jewel. Overtaking is nearly impossible, so qualifying is everything." ∧
    getStr (generate_prediction g (some rows)
        (some (.dict (some "Obscuretown Grand Prix") loc))) "tidbit" =
      some "A circuit that always brings excitement!" := by
  rw [generate_prediction_ok g rows _ ds hne hok,
    generate_prediction_ok g rows _ ds hne hok,
    generate_prediction_ok g rows _ ds hne hok]
  rw [getTidbit_predRecord, getTidbit_predRecord, getTidbit_predRecord]
  refine ⟨?_, ?_, ?_⟩ <;> rfl

theorem C5_witness :
    getStr (generate_prediction (fun _ => 0)
        (some [⟨some (.num 1), none, none, some "A", none, some "T"⟩])
        (some (.dict (some "Monaco Grand Prix") none))) "tidbit" =
      some "The crown jewel. Overtaking is nearly impossible, so qualifying is everything." ∧
    getStr (generate_prediction (fun _ => 0)
        (some [⟨some (.num 1), none, none, some "A", none, some "T"⟩])
        (some (.attrObj (some "Monaco Grand Prix") none))) "tidbit" =
      some "The crown jewel. Overtaking is nearly impossible, so qualifying is everything." ∧
    getStr (generate_prediction (fun _ => 0)
        (some [⟨some (.num 1), none, none, some "A", none, some "T"⟩])
        (some (.dict (some "Obscuretown Grand Prix") none))) "tidbit" =
      some "A circuit that always brings excitement!" :=
  C5_tidbit_selection (fun _ => 0)
    [⟨some (.num 1), none, none, some "A", none, some "T"⟩]
    [⟨"A", 1, "T"⟩] none (by simp) (by rfl)

/-- C7: an absent event descriptor, or an absent name/location field (in
either dict-style or attribute-style descriptors), yields the defaults
"Unknown Event" / "Unknown Location", while a present non-empty name is
passed through for both access styles. -/
theorem C7_event_defaults (g : Nat → Nat) (rows : List Row) (ds : List Driver)
    (hne : rows ≠ []) (hok : buildDrivers rows = .ok ds) :
    (getStr (generate_prediction g (some rows) none) "event_name" =
        some "Unknown Event" ∧
      getStr (generate_prediction g (some rows) none) "location" =
        some "Unknown Location") ∧
    (∀ l, getStr (generate_prediction g (some rows) (some (.dict none l)))
        "event_name" = some "Unknown Event") ∧
    (∀ n, getStr (generate_prediction g (some rows) (some (.dict n none)))
        "location" = some "Unknown Location") ∧
    (∀ l, getStr (generate_prediction g (some rows) (some (.attrObj none l)))
        "event_name" = some "Unknown Event") ∧
    (∀ n, getStr (generate_prediction g (some rows) (some (.attrObj n none)))
        "location" = some "Unknown Location") ∧
    (∀ s l, s ≠ "" →
      getStr (generate_prediction g (some rows) (some (.dict (some s) l)))
        "event_name" = some s) ∧
    (∀ s l, s ≠ "" →
      getStr (generate_prediction g (some rows) (some (.attrObj (some s) l)))
        "event_name" = some s) := by
  have hs : ∀ s : String, s ≠ "" → pyTruthyStr (some s) = true := by
    intro s h
    have hbe : s.isEmpty = false := by
      cases hbe : s.isEmpty
      · rfl
      · exact absurd ((String.isEmpty_iff s).mp hbe) h
    simp [pyTruthyStr, hbe]
  refine ⟨⟨?_, ?_⟩, ?_, ?_, ?_, ?_, ?_, ?_⟩
  · rw [generate_prediction_ok g rows _ ds hne hok, getEventName_predRecord]
    rfl
  · rw [generate_prediction_ok g rows _ ds hne hok, getLocation_predRecord]
    rfl
  · intro l
    rw [generate_prediction_ok g rows _ ds hne hok, getEventName_predRecord]
    rfl
  · intro n
    rw [generate_prediction_ok g rows _ ds hne hok, getLocation_predRecord]
    rfl
  · intro l
    rw [generate_prediction_ok g rows _ ds hne hok, getEventName_predRecord]
    rfl
  · intro n
    rw [generate_prediction_ok g rows _ ds hne hok, getLocation_predRecord]
    rfl
  · intro s l h
    rw [generate_prediction_ok g rows _ ds hne hok, getEventName_predRecord]
    simp [event_name_of, EventInfo.eventName, hs s h]
  · intro s l h
    rw [generate_prediction_ok g rows _ ds hne hok, getEventName_predRecord]
    simp [event_name_of, EventInfo.eventName, hs s h]

theorem C7_witness :
    getStr (generate_prediction (fun _ => 0)
        (some [⟨some (.num 1), none, none, some "A", none, some "T"⟩]) none)
      "event_name" = some "Unknown Event" ∧
    getStr (generate_prediction (fun _ => 0)
        (some [⟨some (.num 1), none, none, some "A", none, some "T"⟩]) none)
      "location" = some "Unknown Location" ∧
    getStr (generate_prediction (fun _ => 0)
        (some [⟨some (.num 1), none, none, some "A", none, some "T"⟩])
        (some (.attrObj (some "Dutch Grand Prix") none))) "event_name" =
      some "Dutch Grand Prix" := by
  have h := C7_event_defaults (fun _ => 0)
    [⟨some (.num 1), none, none, some "A", none, some "T"⟩]
    [⟨"A", 1, "T"⟩] (by simp) (by rfl)
  exact ⟨h.1.1, h.1.2, h.2.2.2.2.2.2 "Dutch Grand Prix" none (by simp)⟩

/-- C2 counterexample: a results table whose candidate list contains three
distinct drivers at position ≤ 5 but a duplicated top row; for the random
state that always draws index 0, the returned podium_favorites contains the
same driver twice, so the drivers are not pairwise distinct. -/
theorem C2_counterexample :
    buildDrivers [⟨some (.num 1), none, none, some "A", none, some "T"⟩,
        ⟨some (.num 1), none, none, some "A", none, some "T"⟩,
        ⟨some (.num 2), none, none, some "B", none, some "T"⟩,
        ⟨some (.num 3), none, none, some "C", none, some "T"⟩] =
      .ok [⟨"A", 1, "T"⟩, ⟨"A", 1, "T"⟩, ⟨"B", 2, "T"⟩, ⟨"C", 3, "T"⟩] ∧
    (top_contenders [⟨"A", 1, "T"⟩, ⟨"A", 1, "T"⟩, ⟨"B", 2, "T"⟩,
        ⟨"C", 3, "T"⟩]).dedup.length = 3 ∧
    getPodium (generate_prediction (fun _ => 0)
        (some [⟨some (.num 1), none, none, some "A", none, some "T"⟩,
          ⟨some (.num 1), none, none, some "A", none, some "T"⟩,
          ⟨some (.num 2), none, none, some "B", none, some "T"⟩,
          ⟨some (.num 3), none, none, some "C", none, some "T"⟩]) none) =
      some [⟨"A", 1, "T"⟩, ⟨"A", 1, "T"⟩, ⟨"B", 2, "T"⟩] ∧
    ¬ ([⟨"A", 1, "T"⟩, ⟨"A", 1, "T"⟩, ⟨"B", 2, "T"⟩] : List Driver).Nodup :=
  ⟨by rfl, by decide, by decide, by decide⟩

/-- C2 (amended): when the top pool (position ≤ 5) has no duplicated entry,
podium_favorites has min(3, pool size) entries — exactly 3 when at least 3
qualify, the pool size otherwise — with no duplicated driver, each drawn from
the top pool, hence with position ≤ 5; and no exception is raised. -/
theorem C2_podium_favorites (g : Nat → Nat) (rows : List Row) (ds : List Driver)
    (ev : Option EventInfo) (hne : rows ≠ []) (hok : buildDrivers rows = .ok ds)
    (hnd : (top_contenders ds).Nodup) :
    ∃ l, getPodium (generate_prediction g (some rows) ev) = some l ∧
      l.length = min 3 (top_contenders ds).length ∧
      (3 ≤ (top_contenders ds).length → l.length = 3) ∧
      ((top_contenders ds).length < 3 → l.length = (top_contenders ds).length) ∧
      l.Nodup ∧
      ∀ d ∈ l, d ∈ top_contenders ds ∧ d.position ≤ 5 := by
  rw [generate_prediction_ok g rows ev ds hne hok, getPodium_predRecord]
  have hlen := podium_length g ds
  refine ⟨podium_favorites g ds, rfl, hlen, ?_, ?_, podium_nodup g ds hnd, ?_⟩
  · intro h3; omega
  · intro h3; omega
  · intro d hd
    have hmem := podium_subset g ds d hd
    exact ⟨hmem, (mem_top_contenders hmem).2⟩

theorem C2_witness :
    ∃ l, getPodium (generate_prediction (fun _ => 0)
        (some [⟨some (.num 1), none, none, some "A", none, some "T"⟩,
          ⟨some (.num 2), none, none, some "B", none, some "T"⟩,
          ⟨some (.num 3), none, none, some "C", none, some "T"⟩,
          ⟨some (.num 4), none, none, some "D", none, some "T"⟩]) none) = some l ∧
      l.length = min 3 (top_contenders [⟨"A", 1, "T"⟩, ⟨"B", 2, "T"⟩,
          ⟨"C", 3, "T"⟩, ⟨"D", 4, "T"⟩]).length ∧
      (3 ≤ (top_contenders [⟨"A", 1, "T"⟩, ⟨"B", 2, "T"⟩, ⟨"C", 3, "T"⟩,
          ⟨"D", 4, "T"⟩]).length → l.length = 3) ∧
      ((top_contenders [⟨"A", 1, "T"⟩, ⟨"B", 2, "T"⟩, ⟨"C", 3, "T"⟩,
          ⟨"D", 4, "T"⟩]).length < 3 →
        l.length = (top_contenders [⟨"A", 1, "T"⟩, ⟨"B", 2, "T"⟩, ⟨"C", 3, "T"⟩,
          ⟨"D", 4, "T"⟩]).length) ∧
      l.Nodup ∧
      ∀ d ∈ l, d ∈ top_contenders [⟨"A", 1, "T"⟩, ⟨"B", 2, "T"⟩, ⟨"C", 3, "T"⟩,
          ⟨"D", 4, "T"⟩] ∧ d.position ≤ 5 :=
  C2_podium_favorites (fun _ => 0)
    [⟨some (.num 1), none, none, some "A", none, some "T"⟩,
      ⟨some (.num 2), none, none, some "B", none, some "T"⟩,
      ⟨some (.num 3), none, none, some "C", none, some "T"⟩,
      ⟨some (.num 4), none, none, some "D", none, some "T"⟩]
    [⟨"A", 1, "T"⟩, ⟨"B", 2, "T"⟩, ⟨"C", 3, "T"⟩, ⟨"D", 4, "T"⟩] none
    (by simp) (by rfl) (by decide)

/-- C3: for a non-empty standings input with successfully built candidate
list, the dark_horse field is none exactly when the mid pool (positions 4..8)
is empty and otherwise a driver of that pool (so its position lies in [4,8]);
likewise potential_surprise for the low pool (positions 9..15). -/
theorem C3_dark_horse_surprise (g : Nat → Nat) (rows : List Row) (ds : List Driver)
    (ev : Option EventInfo) (hne : rows ≠ []) (hok : buildDrivers rows = .ok ds) :
    ((getOptDriver (generate_prediction g (some rows) ev) "dark_horse" = some none ↔
        midfield_strong ds = []) ∧
      ∀ d, getOptDriver (generate_prediction g (some rows) ev) "dark_horse" =
          some (some d) →
        d ∈ midfield_strong ds ∧ 4 ≤ d.position ∧ d.position ≤ 8) ∧
    ((getOptDriver (generate_prediction g (some rows) ev) "potential_surprise" =
          some none ↔ midfield_pack ds = []) ∧
      ∀ d, getOptDriver (generate_prediction g (some rows) ev) "potential_surprise" =
          some (some d) →
        d ∈ midfield_pack ds ∧ 9 ≤ d.position ∧ d.position ≤ 15) := by
  rw [generate_prediction_ok g rows ev ds hne hok, getDark_predRecord,
    getSurprise_predRecord]
  refine ⟨⟨?_, ?_⟩, ?_, ?_⟩
  · rw [Option.some_inj]
    exact dark_horse_none_iff g ds
  · intro d hd
    rw [Option.some_inj] at hd
    have hmem := dark_horse_mem g ds d hd
    have := mem_midfield_strong hmem
    exact ⟨hmem, this.2.1, this.2.2⟩
  · rw [Option.some_inj]
    exact potential_surprise_none_iff g ds
  · intro d hd
    rw [Option.some_inj] at hd
    have hmem := potential_surprise_mem g ds d hd
    have := mem_midfield_pack hmem
    exact ⟨hmem, this.2.1, this.2.2⟩

theorem C3_witness :
    getOptDriver (generate_prediction (fun _ => 0)
        (some [⟨some (.num 5), none, none, some "A", none, some "T"⟩,
          ⟨some (.num 6), none, none, some "B", none, some "T"⟩,
          ⟨some (.num 10), none, none, some "C", none, some "T"⟩]) none)
        "dark_horse" = some (some ⟨"A", 5, "T"⟩) ∧
    ((⟨"A", 5, "T"⟩ : Driver) ∈ midfield_strong [⟨"A", 5, "T"⟩, ⟨"B", 6, "T"⟩,
        ⟨"C", 10, "T"⟩] ∧
      4 ≤ (⟨"A", 5, "T"⟩ : Driver).position ∧ (⟨"A", 5, "T"⟩ : Driver).position ≤ 8) ∧
    ((⟨"C", 10, "T"⟩ : Driver) ∈ midfield_pack [⟨"A", 5, "T"⟩, ⟨"B", 6, "T"⟩,
        ⟨"C", 10, "T"⟩] ∧
      9 ≤ (⟨"C", 10, "T"⟩ : Driver).position ∧ (⟨"C", 10, "T"⟩ : Driver).position ≤ 15) :=
  ⟨by decide,
    (C3_dark_horse_surprise (fun _ => 0)
        [⟨some (.num 5), none, none, some "A", none, some "T"⟩,
          ⟨some (.num 6), none, none, some "B", none, some "T"⟩,
          ⟨some (.num 10), none, none, some "C", none, some "T"⟩]
        [⟨"A", 5, "T"⟩, ⟨"B", 6, "T"⟩, ⟨"C", 10, "T"⟩] none
        (by simp) (by rfl)).1.2 ⟨"A", 5, "T"⟩ (by decide),
    (C3_dark_horse_surprise (fun _ => 0)
        [⟨some (.num 5), none, none, some "A", none, some "T"⟩,
          ⟨some (.num 6), none, none, some "B", none, some "T"⟩,
          ⟨some (.num 10), none, none, some "C", none, some "T"⟩]
        [⟨"A", 5, "T"⟩, ⟨"B", 6, "T"⟩, ⟨"C", 10, "T"⟩] none
        (by simp) (by rfl)).2.2 ⟨"C", 10, "T"⟩ (by decide)⟩

/-- C9: two calls on identical standings and event inputs draw from identical
candidate pools — the pools are functions of the candidate list alone — even
though the randomly selected entries may differ between the runs. -/
theorem C9_pools_identical (g1 g2 : Nat → Nat) (rows : List Row) (ds : List Driver)
    (ev : Option EventInfo) (hne : rows ≠ []) (hok : buildDrivers rows = .ok ds) :
    ∃ l1 l2, getPodium (generate_prediction g1 (some rows) ev) = some l1 ∧
      getPodium (generate_prediction g2 (some rows) ev) = some l2 ∧
      l1.length = l2.length ∧
      (∀ d ∈ l1, d ∈ top_contenders ds) ∧
      (∀ d ∈ l2, d ∈ top_contenders ds) ∧
      (∀ d, getOptDriver (generate_prediction g1 (some rows) ev) "dark_horse" =
          some (some d) → d ∈ midfield_strong ds) ∧
      (∀ d, getOptDriver (generate_prediction g2 (some rows) ev) "dark_horse" =
          some (some d) → d ∈ midfield_strong ds) ∧
      (getOptDriver (generate_prediction g1 (some rows) ev) "dark_horse" = some none ↔
        getOptDriver (generate_prediction g2 (some rows) ev) "dark_horse" = some none) ∧
      (∀ d, getOptDriver (generate_prediction g1 (some rows) ev) "potential_surprise" =
          some (some d) → d ∈ midfield_pack ds) ∧
      (∀ d, getOptDriver (generate_prediction g2 (some rows) ev) "potential_surprise" =
          some (some d) → d ∈ midfield_pack ds) ∧
      (getOptDriver (generate_prediction g1 (some rows) ev) "potential_surprise" =
          some none ↔
        getOptDriver (generate_prediction g2 (some rows) ev) "potential_surprise" =
          some none) := by
  rw [generate_prediction_ok g1 rows ev ds hne hok,
    generate_prediction_ok g2 rows ev ds hne hok,
    getPodium_predRecord, getPodium_predRecord, getDark_predRecord,
    getDark_predRecord, getSurprise_predRecord, getSurprise_predRecord]
  refine ⟨podium_favorites g1 ds, podium_favorites g2 ds, rfl, rfl, ?_, ?_, ?_, ?_,
    ?_, ?_, ?_, ?_, ?_⟩
  · rw [podium_length, podium_length]
  · intro d hd; exact podium_subset g1 ds d hd
  · intro d hd; exact podium_subset g2 ds d hd
  · intro d hd; exact dark_horse_mem g1 ds d (Option.some_inj.mp hd)
  · intro d hd; exact dark_horse_mem g2 ds d (Option.some_inj.mp hd)
  · rw [Option.some_inj, Option.some_inj, dark_horse_none_iff, dark_horse_none_iff]
  · intro d hd; exact potential_surprise_mem g1 ds d (Option.some_inj.mp hd)
  · intro d hd; exact potential_surprise_mem g2 ds d (Option.some_inj.mp hd)
  · rw [Option.some_inj, Option.some_inj, potential_surprise_none_iff,
      potential_surprise_none_iff]

theorem C9_witness :
    ∃ l1 l2, getPodium (generate_prediction (fun _ => 0)
        (some [⟨some (.num 1), none, none, some "A", none, some "T"⟩,
          ⟨some (.num 6), none, none, some "B", none, some "T"⟩]) none) = some l1 ∧
      getPodium (generate_prediction (fun t => t + 7)
        (some [⟨some (.num 1), none, none, some "A", none, some "T"⟩,
          ⟨some (.num 6), none, none, some "B", none, some "T"⟩]) none) = some l2 ∧
      l1.length = l2.length ∧
      (∀ d ∈ l1, d ∈ top_contenders [⟨"A", 1, "T"⟩, ⟨"B", 6, "T"⟩]) ∧
      (∀ d ∈ l2, d ∈ top_contenders [⟨"A", 1, "T"⟩, ⟨"B", 6, "T"⟩]) ∧
      (∀ d, getOptDriver (generate_prediction (fun _ => 0)
          (some [⟨some (.num 1), none, none, some "A", none, some "T"⟩,
            ⟨some (.num 6), none, none, some "B", none, some "T"⟩]) none) "dark_horse" =
          some (some d) → d ∈ midfield_strong [⟨"A", 1, "T"⟩, ⟨"B", 6, "T"⟩]) ∧
      (∀ d, getOptDriver (generate_prediction (fun t => t + 7)
          (some [⟨some (.num 1), none, none, some "A", none, some "T"⟩,
            ⟨some (.num 6), none, none, some "B", none, some "T"⟩]) none) "dark_horse" =
          some (some d) → d ∈ midfield_strong [⟨"A", 1, "T"⟩, ⟨"B", 6, "T"⟩]) ∧
      (getOptDriver (generate_prediction (fun _ => 0)
          (some [⟨some (.num 1), none, none, some "A", none, some "T"⟩,
            ⟨some (.num 6), none, none, some "B", none, some "T"⟩]) none) "dark_horse" =
          some none ↔
        getOptDriver (generate_prediction (fun t => t + 7)
          (some [⟨some (.num 1), none, none, some "A", none, some "T"⟩,
            ⟨some (.num 6), none, none, some "B", none, some "T"⟩]) none) "dark_horse" =
          some none) ∧
      (∀ d, getOptDriver (generate_prediction (fun _ => 0)
          (some [⟨some (.num 1), none, none, some "A", none, some "T"⟩,
            ⟨some (.num 6), none, none, some "B", none, some "T"⟩]) none)
          "potential_surprise" = some (some d) →
          d ∈ midfield_pack [⟨"A", 1, "T"⟩, ⟨"B", 6, "T"⟩]) ∧
      (∀ d, getOptDriver (generate_prediction (fun t => t + 7)
          (some [⟨some (.num 1), none, none, some "A", none, some "T"⟩,
            ⟨some (.num 6), none, none, some "B", none, some "T"⟩]) none)
          "potential_surprise" = some (some d) →
          d ∈ midfield_pack [⟨"A", 1, "T"⟩, ⟨"B", 6, "T"⟩]) ∧
      (getOptDriver (generate_prediction (fun _ => 0)
          (some [⟨some (.num 1), none, none, some "A", none, some "T"⟩,
            ⟨some (.num 6), none, none, some "B", none, some "T"⟩]) none)
          "potential_surprise" = some none ↔
        getOptDriver (generate_prediction (fun t => t + 7)
          (some [⟨some (.num 1), none, none, some "A", none, some "T"⟩,
            ⟨some (.num 6), none, none, some "B", none, some "T"⟩]) none)
          "potential_surprise" = some none) :=
  C9_pools_identical (fun _ => 0) (fun t => t + 7)
    [⟨some (.num 1), none, none, some "A", none, some "T"⟩,
      ⟨some (.num 6), none, none, some "B", none, some "T"⟩]
    [⟨"A", 1, "T"⟩, ⟨"B", 6, "T"⟩] none (by simp) (by rfl)

theorem buildDrivers_length (rows : List Row) :
    ∀ ds : List Driver, buildDrivers rows = .ok ds →
      ds.length = (rows.filter (fun row => !((row.Position.getD .na).isna))).length := by
  induction rows with
  | nil =>
    intro ds h
    cases h
    rfl
  | cons row rest ih =>
    intro ds h
    cases hpos : row.Position with
    | none =>
      simp only [buildDrivers, hpos] at h
      exact Except.noConfusion h
    | some pv =>
      simp only [buildDrivers, hpos] at h
      by_cases hna : pv.isna = true
      · rw [if_pos hna] at h
        rw [ih ds h]
        simp [List.filter_cons, hpos, hna]
      · rw [if_neg hna] at h
        cases hint : pv.toInt with
        | error e => rw [hint] at h; exact Except.noConfusion h
        | ok p =>
          rw [hint] at h
          cases hteam : row.TeamName with
          | none => rw [hteam] at h; exact Except.noConfusion h
          | some tm =>
            rw [hteam] at h
            cases hrest : buildDrivers rest with
            | error e =>
              rw [hrest] at h
              exact Except.noConfusion h
            | ok ds' =>
              rw [hrest] at h
              cases h
              rw [List.length_cons, ih ds' hrest]
              simp [List.filter_cons, hpos, hna]

theorem buildDrivers_ok_of (rows : List Row) :
    (∀ row ∈ rows, (∃ pv, row.Position = some pv ∧
        (pv = .na ∨ ∃ n, pv = .num n)) ∧ row.TeamName.isSome) →
      ∃ ds, buildDrivers rows = .ok ds := by
  induction rows with
  | nil => intro _; exact ⟨[], rfl⟩
  | cons row rest ih =>
    intro h
    obtain ⟨⟨pv, hpv, hcase⟩, hteam⟩ := h row (List.mem_cons_self _ _)
    obtain ⟨ds', hds'⟩ := ih (fun r hr => h r (List.mem_cons_of_mem _ hr))
    rcases hcase with hna | ⟨n, hn⟩
    · subst hna
      refine ⟨ds', ?_⟩
      rw [buildDrivers, hpv]
      simpa [PosVal.isna] using hds'
    · subst hn
      obtain ⟨tm, htm⟩ := Option.isSome_iff_exists.mp hteam
      refine ⟨{ name := deriveName row, position := n, constructor := tm } :: ds', ?_⟩
      rw [buildDrivers, hpv]
      simp [PosVal.isna, PosVal.toInt, htm, hds']

/-- C4 counterexample: a single-row standings table whose Position value is
present but not convertible by `int()` produces an escaping ValueError
instead of being skipped. -/
theorem C4_counterexample :
    generate_prediction (fun _ => 0)
        (some [⟨some (.unparseableVal "DNF"), none, none, some "A", none, some "T"⟩])
        none =
      .raised "ValueError: invalid literal for int: DNF" := by decide

/-- C4 (amended): only rows whose position value is NA are skipped; a
non-NA position that `int()` cannot convert raises a ValueError that escapes
(see the counterexample).  Whenever every row carries a Position column whose
value is NA or an integer and a TeamName column, no exception escapes: the
candidate list is built with exactly one driver per non-NA row and the call
returns a record. -/
theorem C4_no_exception (g : Nat → Nat) (rows : List Row) (ev : Option EventInfo)
    (h : ∀ row ∈ rows, (∃ pv, row.Position = some pv ∧
        (pv = .na ∨ ∃ n, pv = .num n)) ∧ row.TeamName.isSome) :
    ∃ ds, buildDrivers rows = .ok ds ∧
      ds.length = (rows.filter (fun row => !((row.Position.getD .na).isna))).length ∧
      ∃ r, generate_prediction g (some rows) ev = .ret r := by
  obtain ⟨ds, hds⟩ := buildDrivers_ok_of rows h
  refine ⟨ds, hds, buildDrivers_length rows ds hds, ?_⟩
  cases hrows : rows with
  | nil => exact ⟨[("error", .str standingsErrMsg)], rfl⟩
  | cons row rest =>
    subst hrows
    exact ⟨predRecord g ds ev, generate_prediction_ok g _ ev ds (by simp) hds⟩

theorem C4_witness :
    ∃ ds, buildDrivers [⟨some PosVal.na, none, none, some "A", none, some "T"⟩,
        ⟨some (.num 3), none, none, some "B", none, some "T"⟩] = .ok ds ∧
      ds.length = ([(⟨some PosVal.na, none, none, some "A", none, some "T"⟩ : Row),
        ⟨some (.num 3), none, none, some "B", none, some "T"⟩].filter
          (fun row => !((row.Position.getD .na).isna))).length ∧
      ∃ r, generate_prediction (fun _ => 0)
        (some [⟨some PosVal.na, none, none, some "A", none, some "T"⟩,
          ⟨some (.num 3), none, none, some "B", none, some "T"⟩]) none = .ret r := by
  have hyp : ∀ row ∈ [(⟨some PosVal.na, none, none, some "A", none, some "T"⟩ : Row),
      ⟨some (.num 3), none, none, some "B", none, some "T"⟩],
      (∃ pv, row.Position = some pv ∧ (pv = .na ∨ ∃ n, pv = .num n)) ∧
        row.TeamName.isSome := by
    intro row hrow
    rcases List.mem_cons.mp hrow with hr | hr
    · subst hr; exact ⟨⟨.na, rfl, Or.inl rfl⟩, rfl⟩
    · rcases List.mem_cons.mp hr with hr2 | hr2
      · subst hr2; exact ⟨⟨.num 3, rfl, Or.inr ⟨3, rfl⟩⟩, rfl⟩
      · cases hr2
  exact C4_no_exception (fun _ => 0)
    [⟨some PosVal.na, none, none, some "A", none, some "T"⟩,
      ⟨some (.num 3), none, none, some "B", none, some "T"⟩] none hyp

/-- C6: the driver name kept for a candidate row is derived by preference:
GivenName + FamilyName when both fields are present (never falling back to
the abbreviation then), else the Driver field, else the Abbreviation field,
else "Unknown". -/
theorem C6_name_derivation (r : Row) (p : Int) (tm : String)
    (hpos : r.Position = some (.num p)) (hteam : r.TeamName = some tm) :
    (∀ gn fn, r.GivenName = some gn → r.FamilyName = some fn →
      buildDrivers [r] = .ok [⟨gn ++ " " ++ fn, p, tm⟩]) ∧
    ((r.GivenName.isSome && r.FamilyName.isSome) = false →
      ∀ dr, r.Driver = some dr → buildDrivers [r] = .ok [⟨dr, p, tm⟩]) ∧
    ((r.GivenName.isSome && r.FamilyName.isSome) = false → r.Driver = none →
      ∀ ab, r.Abbreviation = some ab → buildDrivers [r] = .ok [⟨ab, p, tm⟩]) ∧
    ((r.GivenName.isSome && r.FamilyName.isSome) = false → r.Driver = none →
      r.Abbreviation = none → buildDrivers [r] = .ok [⟨"Unknown", p, tm⟩]) := by
  have hbase : ∀ nm, deriveName r = nm → buildDrivers [r] = .ok [⟨nm, p, tm⟩] := by
    intro nm hnm
    rw [buildDrivers, hpos]
    simp [PosVal.isna, PosVal.toInt, hteam, buildDrivers, hnm]
  refine ⟨?_, ?_, ?_, ?_⟩
  · intro gn fn hgn hfn
    exact hbase _ (by simp [deriveName, hgn, hfn])
  · intro hng dr hdr
    exact hbase _ (by simp [deriveName, hng, hdr])
  · intro hng hdr ab hab
    exact hbase _ (by simp [deriveName, hng, hdr, hab])
  · intro hng hdr hab
    exact hbase _ (by simp [deriveName, hng, hdr, hab])

theorem C6_witness :
    buildDrivers [⟨some (.num 1), some "Max", some "Verstappen", some "DRV",
        some "VER", some "T"⟩] = .ok [⟨"Max" ++ " " ++ "Verstappen", 1, "T"⟩] :=
  (C6_name_derivation
      ⟨some (.num 1), some "Max", some "Verstappen", some "DRV", some "VER", some "T"⟩
      1 "T" rfl rfl).1 "Max" "Verstappen" rfl rfl

theorem pyTruthyStr_some_true {s : String} (h : s ≠ "") :
    pyTruthyStr (some s) = true := by
  have hbe : s.isEmpty = false := by
    cases hbe : s.isEmpty
    · rfl
    · exact absurd ((String.isEmpty_iff s).mp hbe) h
  simp [pyTruthyStr, hbe]

theorem get_next_gp_no_query (schedule : List SEvent) (now : Int)
    (f : String → Option SEvent)
    (hne : schedule.filter (fun e => decide (now ≤ e.EventDate)) ≠ []) :
    get_next_gp schedule now f none =
      ((schedule.filter (fun e => decide (now ≤ e.EventDate))).head?, none) := by
  have hie : (schedule.filter (fun e => decide (now ≤ e.EventDate))).isEmpty = false := by
    simpa [List.isEmpty_iff] using hne
  unfold get_next_gp
  simp [hie, pyTruthyStr]

/-- C8 counterexample: on a schedule whose rows are not in ascending date
order, the no-query call returns the first future row in schedule order
(date 10) even though a future event with an earlier date (5) exists, so the
result is not the earliest-dated future event. -/
theorem C8_counterexample :
    get_next_gp [⟨10, "A"⟩, ⟨5, "B"⟩] 0 (fun _ => none) none =
      (some ⟨10, "A"⟩, none) ∧
    (⟨5, "B"⟩ : SEvent) ∈ [(⟨10, "A"⟩ : SEvent), ⟨5, "B"⟩] ∧
    (0 : Int) ≤ (⟨5, "B"⟩ : SEvent).EventDate ∧
    (⟨5, "B"⟩ : SEvent).EventDate < (⟨10, "A"⟩ : SEvent).EventDate :=
  ⟨by decide, by decide, by decide, by decide⟩

/-- C8 (amended): `get_next_gp` with no name query returns the first schedule
row with date ≥ now — on a schedule sorted by ascending date this is the
earliest-dated future event — or a message string when no future event
exists; with a name query it returns the event found by the schedule's name
lookup only if that event's date is ≥ now, and otherwise a distinguishable
message string. -/
theorem C8_schedule_contract (schedule : List SEvent) (now : Int)
    (f : String → Option SEvent)
    (hsorted : schedule.Pairwise (fun a b => a.EventDate ≤ b.EventDate)) :
    (∀ e0 ∈ schedule, now ≤ e0.EventDate →
      ∃ e, get_next_gp schedule now f none = (some e, none) ∧ e ∈ schedule ∧
        now ≤ e.EventDate ∧
        ∀ x ∈ schedule, now ≤ x.EventDate → e.EventDate ≤ x.EventDate) ∧
    ((∀ e0 ∈ schedule, ¬ now ≤ e0.EventDate) →
      ∃ m, get_next_gp schedule now f none = (none, some m)) ∧
    (∀ q : String, q ≠ "" → (∃ e0 ∈ schedule, now ≤ e0.EventDate) →
      (∀ e1, f q = some e1 → now ≤ e1.EventDate →
        get_next_gp schedule now f (some q) = (some e1, none)) ∧
      (∀ e1, f q = some e1 → e1.EventDate < now →
        ∃ m, get_next_gp schedule now f (some q) = (none, some m)) ∧
      (f q = none → ∃ m, get_next_gp schedule now f (some q) = (none, some m))) := by
  refine ⟨?_, ?_, ?_⟩
  · intro e0 he0 hnow
    have hmem : e0 ∈ schedule.filter (fun e => decide (now ≤ e.EventDate)) :=
      List.mem_filter.mpr ⟨he0, by simpa using hnow⟩
    have hne : schedule.filter (fun e => decide (now ≤ e.EventDate)) ≠ [] :=
      List.ne_nil_of_mem hmem
    have hhead := List.head_mem hne
    have hhead2 := List.mem_filter.mp hhead
    refine ⟨(schedule.filter (fun e => decide (now ≤ e.EventDate))).head hne,
      ?_, hhead2.1, by simpa using hhead2.2, ?_⟩
    · rw [get_next_gp_no_query schedule now f hne, List.head?_eq_head hne]
    · intro x hx hxnow
      have hxf : x ∈ schedule.filter (fun e => decide (now ≤ e.EventDate)) :=
        List.mem_filter.mpr ⟨hx, by simpa using hxnow⟩
      have hsorted2 := hsorted.filter (fun e => decide (now ≤ e.EventDate))
      rw [← List.head_cons_tail _ hne] at hsorted2 hxf
      obtain ⟨hall, -⟩ := List.pairwise_cons.mp hsorted2
      rcases List.mem_cons.mp hxf with hx1 | hx1
      · rw [hx1]
      · exact hall x hx1
  · intro hall
    have hnil : schedule.filter (fun e => decide (now ≤ e.EventDate)) = [] :=
      List.filter_eq_nil_iff.mpr (fun a ha => by simpa using hall a ha)
    refine ⟨"No upcoming races found for the rest of the season.", ?_⟩
    unfold get_next_gp
    simp [hnil]
  · intro q hq ⟨e0, he0, hnow⟩
    have hmem : e0 ∈ schedule.filter (fun e => decide (now ≤ e.EventDate)) :=
      List.mem_filter.mpr ⟨he0, by simpa using hnow⟩
    have hie : (schedule.filter (fun e => decide (now ≤ e.EventDate))).isEmpty = false := by
      simpa [List.isEmpty_iff] using List.ne_nil_of_mem hmem
    have htr := pyTruthyStr_some_true hq
    refine ⟨?_, ?_, ?_⟩
    · intro e1 hf hfut
      unfold get_next_gp
      simp [hie, htr, hf, hfut]
    · intro e1 hf hpast
      refine ⟨"Could not find a future Grand Prix matching \x27" ++ q ++ "\x27.", ?_⟩
      unfold get_next_gp
      simp [hie, htr, hf, not_le.mpr hpast]
    · intro hf
      refine ⟨"Could not find a future Grand Prix matching \x27" ++ q ++ "\x27.", ?_⟩
      unfold get_next_gp
      simp [hie, htr, hf]

theorem C8_witness :
    ∃ e, get_next_gp [⟨5, "B"⟩, ⟨10, "A"⟩] 0 (fun _ => none) none = (some e, none) ∧
      e ∈ [(⟨5, "B"⟩ : SEvent), ⟨10, "A"⟩] ∧ (0 : Int) ≤ e.EventDate ∧
      ∀ x ∈ [(⟨5, "B"⟩ : SEvent), ⟨10, "A"⟩], (0 : Int) ≤ x.EventDate →
        e.EventDate ≤ x.EventDate :=
  (C8_schedule_contract [⟨5, "B"⟩, ⟨10, "A"⟩] 0 (fun _ => none) (by decide)).1
    ⟨5, "B"⟩ (by decide) (by decide)

end Formula1
